import Mathlib

/-!
Shallow embedding of `src/transcribe.py` (whisper-transcript-gui).

The program is a Tk GUI around the Whisper transcription engine.  The parts
relevant to the claims are:

* `get_media_duration` (lines 41-65): probes ffprobe for a media duration,
  returning `0.0` on any failure;
* `WhisperGUI.start_transcription` (lines 198-232): the controller-side job
  start with its precondition checks, ETA initialisation and worker spawn;
* `WhisperGUI._progress_tick` (lines 234-247): the 200 ms polling loop that
  simulates progress;
* `WhisperGUI._do_transcription` (lines 252-290): the worker-thread body;
* `WhisperGUI._set_status` (lines 292-297): the ordered status channel.

Modelling conventions:

* Python floats are modelled by `ℚ` (so `1.2` is the exact rational `6/5`;
  note `60 * 1.2 = 72.0` exactly in IEEE doubles as well).
* External effects (the filesystem, ffmpeg/ffprobe, torch, whisper, the
  output sink) are oracles supplied as function-valued record fields;
  fallible calls return `Except String`, mirroring Python exceptions with
  their message.
* Tk `StringVar.get()` reads are modelled by a `FormFields` record holding
  the field values *at the moment of the read*: `_do_transcription` receives
  the fields as they are when the worker executes, which is exactly the
  behaviour of the source (it calls `.get()` inside the worker thread).
* `messagebox.showerror` / `showinfo` become a synchronous `Popup` value;
  `_set_status` posts become an ordered `List StatusMsg` (the `after(0, ...)`
  channel applies messages in post order, spec section 4.3).
* Thread liveness (`worker_thread and worker_thread.is_alive()`) is an
  observation of the runtime, not controller-owned data, so it is passed to
  `start_transcription` and `progress_tick` as an explicit `Bool` argument.
-/

/-- Python `str.strip()`: remove leading and trailing whitespace.  Defined
by structural recursion over the character list so that it evaluates inside
the kernel (`String.trim` of core Lean computes the same string but is
kernel-opaque). -/
def pyStrip (s : String) : String :=
  String.mk (((s.data.dropWhile Char.isWhitespace).reverse.dropWhile
    Char.isWhitespace).reverse)

/-- The five Tk string variables of the form, as read at some instant:
`input_var`, `model_var`, `lang_var`, `device_var`, `output_var`
(lines 93, 108, 120, 132, 147). -/
structure FormFields where
  input_var : String
  model_var : String
  lang_var : String
  device_var : String
  output_var : String
deriving DecidableEq

/-- Environment oracle for the controller side: `os.path.exists`,
`ffmpeg_available()` (lines 27-38), and the ffprobe duration probe.
`probe p = none` models the ffprobe subprocess raising / failing;
`probe p = some d` models a successful parse of its stdout as a float. -/
structure Env where
  pathExists : String → Bool
  ffmpegOk : Bool
  probe : String → Option ℚ

/-- `get_media_duration` (lines 41-65): returns the probed duration, or `0.0`
if ffprobe is not available or the call fails (the `except` clause). -/
def get_media_duration (env : Env) (path : String) : ℚ :=
  match env.probe path with
  | some d => d
  | none => 0

/-- Kind of a synchronous message box: `messagebox.showerror` vs
`messagebox.showinfo`. -/
inductive MsgKind where
  | error
  | info
deriving DecidableEq

/-- A synchronous message box call: kind, window title, body text. -/
structure Popup where
  kind : MsgKind
  title : String
  body : String
deriving DecidableEq

/-- Controller-owned state touched by `start_transcription` and
`_progress_tick`: the form fields, the ETA helpers `estimated_seconds` and
`elapsed_ms` (lines 79-80), the progress-bar value, the last computed
`remaining` value of a tick (line 242), the status label text, and whether
an `after(200, _progress_tick)` callback is pending. -/
structure ControllerState where
  fields : FormFields
  estimated_seconds : ℚ
  elapsed_ms : ℚ
  progressValue : ℚ
  lastRemaining : ℚ
  statusText : String
  tickScheduled : Bool
deriving DecidableEq

/-- Result of one `start_transcription` call: the controller state after the
call, whether a worker thread was spawned (`threading.Thread(...).start()`,
lines 228-229), and the synchronous message box shown, if any. -/
structure StartOutcome where
  state : ControllerState
  spawned : Bool
  popup : Option Popup
deriving DecidableEq

/-- `start_transcription` (lines 198-232).  `alive` is the observed value of
`self.worker_thread and self.worker_thread.is_alive()` (line 211).  The
checks run in source order: input path (200), ffmpeg (204), already-running
(211); only then are the ETA fields reset and the worker spawned. -/
def start_transcription (env : Env) (alive : Bool) (s : ControllerState) :
    StartOutcome :=
  let input_path := pyStrip s.fields.input_var
  if input_path = "" ∨ env.pathExists input_path = false then
    { state := s, spawned := false,
      popup := some { kind := MsgKind.error, title := "Error",
                      body := "Please select a valid input file." } }
  else if env.ffmpegOk = false then
    { state := s, spawned := false,
      popup := some { kind := MsgKind.error, title := "ffmpeg not found",
                      body := "ffmpeg could not be executed.\nPlease adjust FFMPEG_DIR at the top of the script." } }
  else if alive then
    { state := s, spawned := false,
      popup := some { kind := MsgKind.info, title := "Info",
                      body := "Transcription is already running." } }
  else
    let probed := get_media_duration env input_path
    let duration_sec := if probed ≤ 0 then (60 : ℚ) else probed
    { state := { s with
        estimated_seconds := duration_sec * (6 / 5),
        elapsed_ms := 0,
        progressValue := 0,
        statusText := "Loading model and starting transcription ...",
        tickScheduled := true },
      spawned := true,
      popup := none }

/-- `_progress_tick` (lines 234-247).  `alive` is the observed value of
`self.worker_thread and self.worker_thread.is_alive()` (line 236).  While
alive: advance `elapsed_ms` by the 200 ms tick, recompute the capped
percentage, the clamped remaining time and the status line, and reschedule.
Otherwise set the bar to 100 and stop rescheduling.  Python `int()` on the
non-negative `remaining` is truncation toward zero, i.e. the floor. -/
def progress_tick (alive : Bool) (s : ControllerState) : ControllerState :=
  if alive then
    let elapsed := s.elapsed_ms + 200
    let pct := min (elapsed / (s.estimated_seconds * 1000) * 100) 98
    let remaining := max 0 ((s.estimated_seconds * 1000 - elapsed) / 1000)
    { s with
      elapsed_ms := elapsed,
      progressValue := pct,
      lastRemaining := remaining,
      statusText := "Running ... estimated ~" ++ toString ⌊remaining⌋ ++ " s remaining",
      tickScheduled := true }
  else
    { s with progressValue := 100, tickScheduled := false }

/-- The tick trajectory after a job start: tick number `n + 1` observes the
worker as alive exactly when `n < aliveFor`, i.e. the worker terminates
between the `aliveFor`-th and the following tick (a thread never becomes
alive again, so liveness observations are a prefix of `true`s). -/
def runTicks (aliveFor : ℕ) (s0 : ControllerState) : ℕ → ControllerState
  | 0 => s0
  | n + 1 => progress_tick (decide (n < aliveFor)) (runTicks aliveFor s0 n)

/-- Status messages posted by the worker via `_set_status` (lines 258, 264,
268, 288, 290), as an inductive so that "terminal vs informational" is a
structural property; `renderStatus` gives the exact source strings. -/
inductive StatusMsg where
  | cudaFallback
  | loadingModel (name : String)
  | transcribing
  | done (outputPath : String)
  | error (cause : String)
deriving DecidableEq

/-- The exact strings passed to `_set_status` in the source. -/
def renderStatus : StatusMsg → String
  | StatusMsg.cudaFallback => "CUDA not available, using CPU."
  | StatusMsg.loadingModel name => "Loading model \x27" ++ name ++ "\x27 ..."
  | StatusMsg.transcribing => "Transcribing ..."
  | StatusMsg.done outputPath => "Done. Transcript saved to: " ++ outputPath
  | StatusMsg.error cause => "Error: " ++ cause

/-- A terminal status is the done-with-path or error-with-cause message;
everything else is informational. -/
def isTerminal : StatusMsg → Bool
  | StatusMsg.done _ => true
  | StatusMsg.error _ => true
  | _ => false

/-- Oracle for the worker thread: `torch.cuda.is_available()`,
`whisper.load_model(name, device)`, `model.transcribe(...)` (returning the
`result["text"]` string on success), and the output-file write
(`open(path, "w").write(text)`).  An `Except.error` models the call raising
an exception whose rendering is the carried string. -/
structure WorkerEnv where
  cudaAvailable : Bool
  loadModel : String → String → Except String Unit
  transcribe : String → Except String String
  writeFile : String → String → Except String Unit

/-- Device resolution (lines 255-257): fall back to CPU when CUDA was
requested but is unavailable. -/
def resolveDevice (cudaAvailable : Bool) (requested : String) : String :=
  if requested = "cuda" ∧ cudaAvailable = false then "cpu" else requested

/-- The keyword arguments of the `model.transcribe` call (lines 274-281),
built from the form fields as read inside the worker thread. -/
structure TranscribeArgs where
  path : String
  language : Option String
  temperature : ℚ
  without_timestamps : Bool
  fp16 : Bool
  word_timestamps : Bool
deriving DecidableEq

/-- The transcribe arguments as a function of the at-execution form fields
(lines 269-281): trimmed input path, `None` language for "Auto",
`temperature=0.0`, `without_timestamps=False`, `fp16` iff the resolved
device is cuda, `word_timestamps=True`. -/
def argsOf (cudaAvailable : Bool) (f : FormFields) : TranscribeArgs :=
  { path := pyStrip f.input_var,
    language := if f.lang_var = "Auto" then none else some f.lang_var,
    temperature := 0,
    without_timestamps := false,
    fp16 := resolveDevice cudaAvailable f.device_var == "cuda",
    word_timestamps := true }

/-- Observable outcome of one `_do_transcription` run: the status messages
in post order, the resolved device string passed to `load_model` and used
for `fp16`, the `load_model` + `transcribe` call when it happened (model
name, device, arguments), and the output write when it succeeded (path and
text).  The function is total: every failure is caught by the
`try`/`except` (lines 253, 289-290) and becomes a terminal error message,
never a propagated fault. -/
structure WorkerResult where
  messages : List StatusMsg
  resolvedDevice : String
  callArgs : Option (String × String × TranscribeArgs)
  written : Option (String × String)
deriving DecidableEq

/-- `_do_transcription` (lines 252-290).  `f` holds the form-field values as
the worker reads them with `.get()` during execution — the source takes no
snapshot at job start.  The `transcribe` oracle receives the input path;
the full keyword arguments are recorded in `callArgs`. -/
def do_transcription (env : WorkerEnv) (f : FormFields) : WorkerResult :=
  let device := resolveDevice env.cudaAvailable f.device_var
  let pre : List StatusMsg :=
    if f.device_var = "cuda" ∧ env.cudaAvailable = false then
      [StatusMsg.cudaFallback]
    else []
  let model_name := f.model_var
  let msgs1 := pre ++ [StatusMsg.loadingModel model_name]
  match env.loadModel model_name device with
  | Except.error e =>
      { messages := msgs1 ++ [StatusMsg.error e], resolvedDevice := device,
        callArgs := none, written := none }
  | Except.ok _ =>
      let msgs2 := msgs1 ++ [StatusMsg.transcribing]
      let args := argsOf env.cudaAvailable f
      match env.transcribe args.path with
      | Except.error e =>
          { messages := msgs2 ++ [StatusMsg.error e], resolvedDevice := device,
            callArgs := some (model_name, device, args), written := none }
      | Except.ok text =>
          let output_path := pyStrip f.output_var
          match env.writeFile output_path text with
          | Except.error e =>
              { messages := msgs2 ++ [StatusMsg.error e],
                resolvedDevice := device,
                callArgs := some (model_name, device, args), written := none }
          | Except.ok _ =>
              { messages := msgs2 ++ [StatusMsg.done output_path],
                resolvedDevice := device,
                callArgs := some (model_name, device, args),
                written := some (output_path, text) }

/-! ## Concrete fixtures used by witnesses and counterexamples -/

/-- A concrete filled-in form. -/
def wFields : FormFields :=
  { input_var := "in.mp3", model_var := "base", lang_var := "Auto",
    device_var := "cpu", output_var := "out.txt" }

/-- The GUI state right after `__init__` with the form filled in. -/
def wReady : ControllerState :=
  { fields := wFields, estimated_seconds := 0, elapsed_ms := 0,
    progressValue := 0, lastRemaining := 0, statusText := "Ready.",
    tickScheduled := false }

/-- Same state with the input path cleared. -/
def wEmptyInput : ControllerState :=
  { wReady with fields := { wFields with input_var := "" } }

/-- Everything available, ffprobe reports a 30 s file. -/
def wEnvOk : Env :=
  { pathExists := fun _ => true, ffmpegOk := true, probe := fun _ => some 30 }

/-- The input file does not exist. -/
def wEnvNoFile : Env :=
  { pathExists := fun _ => false, ffmpegOk := true, probe := fun _ => none }

/-- File exists and ffmpeg works, but the ffprobe call fails. -/
def wEnvNoProbe : Env :=
  { pathExists := fun _ => true, ffmpegOk := true, probe := fun _ => none }

/-- File exists, ffprobe reports a half-second file. -/
def wEnvHalf : Env :=
  { pathExists := fun _ => true, ffmpegOk := true, probe := fun _ => some (1 / 2) }

/-- A mid-job state whose simulated elapsed time has overrun the estimate:
0.1 estimated seconds (100 ms) but 200 ms already elapsed. -/
def wOverrun : ControllerState :=
  { wReady with estimated_seconds := 1 / 10, elapsed_ms := 200 }

/-- A worker oracle in which every external call succeeds. -/
def wWEnvOk : WorkerEnv :=
  { cudaAvailable := false,
    loadModel := fun _ _ => Except.ok (),
    transcribe := fun _ => Except.ok "hello",
    writeFile := fun _ _ => Except.ok () }

/-- A worker oracle with cuda requested-but-unavailable semantics. -/
def wFieldsCuda : FormFields := { wFields with device_var := "cuda" }

/-! ## Branch lemmas for `start_transcription` -/

/-- Invalid-input branch (lines 200-202): empty or non-existing input path. -/
lemma start_invalid_input (env : Env) (alive : Bool) (s : ControllerState)
    (h1 : pyStrip s.fields.input_var = "" ∨
      env.pathExists (pyStrip s.fields.input_var) = false) :
    start_transcription env alive s =
      { state := s, spawned := false,
        popup := some { kind := MsgKind.error, title := "Error",
                        body := "Please select a valid input file." } } := by
  unfold start_transcription
  rw [if_pos h1]

/-- Missing-ffmpeg branch (lines 204-209). -/
lemma start_no_ffmpeg (env : Env) (alive : Bool) (s : ControllerState)
    (h1 : ¬ (pyStrip s.fields.input_var = "" ∨
      env.pathExists (pyStrip s.fields.input_var) = false))
    (h2 : env.ffmpegOk = false) :
    start_transcription env alive s =
      { state := s, spawned := false,
        popup := some { kind := MsgKind.error, title := "ffmpeg not found",
                        body := "ffmpeg could not be executed.\nPlease adjust FFMPEG_DIR at the top of the script." } } := by
  unfold start_transcription
  rw [if_neg h1, if_pos h2]

/-- Already-running branch (lines 211-213). -/
lemma start_already_running (env : Env) (alive : Bool) (s : ControllerState)
    (h1 : ¬ (pyStrip s.fields.input_var = "" ∨
      env.pathExists (pyStrip s.fields.input_var) = false))
    (h2 : ¬ env.ffmpegOk = false) (h3 : alive = true) :
    start_transcription env alive s =
      { state := s, spawned := false,
        popup := some { kind := MsgKind.info, title := "Info",
                        body := "Transcription is already running." } } := by
  unfold start_transcription
  rw [if_neg h1, if_neg h2, if_pos (by simp [h3])]

/-- Spawn branch (lines 215-232): all preconditions hold. -/
lemma start_spawn (env : Env) (alive : Bool) (s : ControllerState)
    (h1 : ¬ (pyStrip s.fields.input_var = "" ∨
      env.pathExists (pyStrip s.fields.input_var) = false))
    (h2 : ¬ env.ffmpegOk = false) (h3 : ¬ alive = true) :
    start_transcription env alive s =
      { state := { s with
          estimated_seconds :=
            (if get_media_duration env (pyStrip s.fields.input_var) ≤ 0
              then (60 : ℚ)
              else get_media_duration env (pyStrip s.fields.input_var)) * (6 / 5),
          elapsed_ms := 0,
          progressValue := 0,
          statusText := "Loading model and starting transcription ...",
          tickScheduled := true },
        spawned := true, popup := none } := by
  unfold start_transcription
  rw [if_neg h1, if_neg h2, if_neg (by simp_all)]

/-- A call that spawned a worker passed all three precondition checks. -/
lemma start_spawned_conds (env : Env) (alive : Bool) (s : ControllerState)
    (h : (start_transcription env alive s).spawned = true) :
    ¬ (pyStrip s.fields.input_var = "" ∨
      env.pathExists (pyStrip s.fields.input_var) = false) ∧
    ¬ env.ffmpegOk = false ∧ ¬ alive = true := by
  by_cases h1 : pyStrip s.fields.input_var = "" ∨
      env.pathExists (pyStrip s.fields.input_var) = false
  · rw [start_invalid_input env alive s h1] at h
    exact absurd h (by simp)
  by_cases h2 : env.ffmpegOk = false
  · rw [start_no_ffmpeg env alive s h1 h2] at h
    exact absurd h (by simp)
  by_cases h3 : alive = true
  · rw [start_already_running env alive s h1 h2 h3] at h
    exact absurd h (by simp)
  exact ⟨h1, h2, h3⟩

/-- The full outcome of a spawning call. -/
lemma start_spawn_eq (env : Env) (alive : Bool) (s : ControllerState)
    (h : (start_transcription env alive s).spawned = true) :
    start_transcription env alive s =
      { state := { s with
          estimated_seconds :=
            (if get_media_duration env (pyStrip s.fields.input_var) ≤ 0
              then (60 : ℚ)
              else get_media_duration env (pyStrip s.fields.input_var)) * (6 / 5),
          elapsed_ms := 0,
          progressValue := 0,
          statusText := "Loading model and starting transcription ...",
          tickScheduled := true },
        spawned := true, popup := none } := by
  obtain ⟨h1, h2, h3⟩ := start_spawned_conds env alive s h
  exact start_spawn env alive s h1 h2 h3

/-- The estimated total is strictly positive after every spawning call. -/
lemma est_pos_of_spawned (env : Env) (alive : Bool) (s : ControllerState)
    (h : (start_transcription env alive s).spawned = true) :
    0 < (start_transcription env alive s).state.estimated_seconds := by
  rw [start_spawn_eq env alive s h]
  rcases le_or_lt (get_media_duration env (pyStrip s.fields.input_var)) 0 with hp | hp
  · rw [if_pos hp]
    norm_num
  · rw [if_neg (not_le.mpr hp)]
    exact mul_pos hp (by norm_num)

/-! ## Tick lemmas -/

/-- An alive tick (lines 236-244) written out as a record update. -/
lemma progress_tick_alive (s : ControllerState) :
    progress_tick true s =
      { s with
        elapsed_ms := s.elapsed_ms + 200,
        progressValue :=
          min ((s.elapsed_ms + 200) / (s.estimated_seconds * 1000) * 100) 98,
        lastRemaining :=
          max 0 ((s.estimated_seconds * 1000 - (s.elapsed_ms + 200)) / 1000),
        statusText := "Running ... estimated ~" ++
          toString ⌊max 0 ((s.estimated_seconds * 1000 - (s.elapsed_ms + 200)) / 1000)⌋ ++
          " s remaining",
        tickScheduled := true } := by
  unfold progress_tick
  rw [if_pos rfl]

/-- A dead tick (lines 246-247): jump to 100 and stop rescheduling. -/
lemma progress_tick_dead (s : ControllerState) :
    progress_tick false s = { s with progressValue := 100, tickScheduled := false } := by
  unfold progress_tick
  rw [if_neg (by simp)]

/-- No tick ever writes `estimated_seconds`. -/
lemma progress_tick_est (alive : Bool) (s : ControllerState) :
    (progress_tick alive s).estimated_seconds = s.estimated_seconds := by
  cases alive
  · rw [progress_tick_dead]
  · rw [progress_tick_alive]

/-- `estimated_seconds` is constant along any tick trajectory. -/
lemma runTicks_est (aliveFor : ℕ) (s0 : ControllerState) (n : ℕ) :
    (runTicks aliveFor s0 n).estimated_seconds = s0.estimated_seconds := by
  induction n with
  | zero => rfl
  | succ n ih =>
      show (progress_tick _ _).estimated_seconds = _
      rw [progress_tick_est]
      exact ih

/-- Characterisation of the trajectory while the worker is alive: after `n`
alive ticks, `elapsed_ms` has advanced by `200 n`; for `n = 0` progress and
scheduling are the start values, and for `n ≥ 1` progress is the capped
percentage of the current `elapsed_ms` and a next tick is scheduled. -/
lemma runTicks_alive_char (aliveFor : ℕ) (s0 : ControllerState) :
    ∀ n, n ≤ aliveFor →
      (runTicks aliveFor s0 n).elapsed_ms = s0.elapsed_ms + 200 * (n : ℚ) ∧
      ((n = 0 ∧ (runTicks aliveFor s0 n).progressValue = s0.progressValue ∧
          (runTicks aliveFor s0 n).tickScheduled = s0.tickScheduled) ∨
        (1 ≤ n ∧ (runTicks aliveFor s0 n).progressValue =
          min ((s0.elapsed_ms + 200 * (n : ℚ)) / (s0.estimated_seconds * 1000) * 100) 98 ∧
          (runTicks aliveFor s0 n).tickScheduled = true)) := by
  intro n
  induction n with
  | zero =>
      intro _
      refine ⟨?_, Or.inl ⟨rfl, rfl, rfl⟩⟩
      show s0.elapsed_ms = s0.elapsed_ms + 200 * ((0 : ℕ) : ℚ)
      push_cast
      ring
  | succ n ih =>
      intro hn
      have hlt : n < aliveFor := Nat.lt_of_succ_le hn
      obtain ⟨ihe, _⟩ := ih (Nat.le_of_lt hlt)
      have hstep : runTicks aliveFor s0 (n + 1) =
          progress_tick true (runTicks aliveFor s0 n) := by
        show progress_tick (decide (n < aliveFor)) _ = _
        rw [decide_eq_true hlt]
      rw [hstep, progress_tick_alive]
      refine ⟨?_, Or.inr ⟨Nat.le_add_left 1 n, ?_, rfl⟩⟩
      · show (runTicks aliveFor s0 n).elapsed_ms + 200 = _
        rw [ihe]
        push_cast
        ring
      · show min (((runTicks aliveFor s0 n).elapsed_ms + 200) /
            ((runTicks aliveFor s0 n).estimated_seconds * 1000) * 100) 98 = _
        rw [ihe, runTicks_est]
        congr 2
        push_cast
        ring

/-- The tick after the worker terminated is a dead tick. -/
lemma runTicks_dead (aliveFor : ℕ) (s0 : ControllerState) :
    runTicks aliveFor s0 (aliveFor + 1) =
      { runTicks aliveFor s0 aliveFor with
        progressValue := 100, tickScheduled := false } := by
  show progress_tick (decide (aliveFor < aliveFor)) _ = _
  rw [decide_eq_false (Nat.lt_irrefl aliveFor), progress_tick_dead]

/-! ## Claims C2, C4, C6, C8, C9 (controller side) -/

/-- C2 counterexample: the claim says that while a job is alive any
`start_transcription` call — including one with a missing input path —
surfaces an informational message and never an error.  In the source the
input-path check (line 200) runs *before* the already-running check
(line 211), so with a job alive and an empty input field the call shows the
`showerror` box, not the `showinfo` box. -/
theorem C2_counterexample :
    ((start_transcription wEnvOk true wEmptyInput).popup.map Popup.kind) =
      some MsgKind.error ∧
    ((start_transcription wEnvOk true wEmptyInput).popup.map Popup.kind) ≠
      some MsgKind.info := by
  rw [start_invalid_input wEnvOk true wEmptyInput (Or.inl rfl)]
  exact ⟨rfl, by simp⟩

/-- C2 (amended): while a job is alive, a `start_transcription` call whose
input path passes the existence check and with ffmpeg available is a no-op
that surfaces the informational "already running" box; but the precondition
checks run first, so an invalid input path or missing ffmpeg still surfaces
an error box even while a job is alive. -/
theorem C2_amended_already_running (env : Env) (s : ControllerState)
    (hpath : ¬ (pyStrip s.fields.input_var = "" ∨
      env.pathExists (pyStrip s.fields.input_var) = false))
    (hff : env.ffmpegOk = true) :
    start_transcription env true s =
      { state := s, spawned := false,
        popup := some { kind := MsgKind.info, title := "Info",
                        body := "Transcription is already running." } } :=
  start_already_running env true s hpath (by simp [hff]) rfl

/-- C2 witness: the amended theorem applied to a concrete alive-job state. -/
theorem C2_amended_witness :
    start_transcription wEnvOk true wReady =
      { state := wReady, spawned := false,
        popup := some { kind := MsgKind.info, title := "Info",
                        body := "Transcription is already running." } } :=
  C2_amended_already_running wEnvOk wReady (by decide) rfl

/-- C4: while a job is alive, `start_transcription` never spawns a second
worker and leaves the whole controller state — in particular
`estimated_seconds`, `elapsed_ms` and the progress value — unchanged:
every alive-state call returns through one of the three early branches,
all of which precede the EstimateState writes of lines 221-223. -/
theorem C4_no_second_spawn (env : Env) (s : ControllerState) :
    (start_transcription env true s).spawned = false ∧
    (start_transcription env true s).state = s ∧
    (start_transcription env true s).state.estimated_seconds = s.estimated_seconds ∧
    (start_transcription env true s).state.elapsed_ms = s.elapsed_ms ∧
    (start_transcription env true s).state.progressValue = s.progressValue := by
  by_cases h1 : pyStrip s.fields.input_var = "" ∨
      env.pathExists (pyStrip s.fields.input_var) = false
  · rw [start_invalid_input env true s h1]
    exact ⟨rfl, rfl, rfl, rfl, rfl⟩
  by_cases h2 : env.ffmpegOk = false
  · rw [start_no_ffmpeg env true s h1 h2]
    exact ⟨rfl, rfl, rfl, rfl, rfl⟩
  · rw [start_already_running env true s h1 h2 rfl]
    exact ⟨rfl, rfl, rfl, rfl, rfl⟩

/-- C6: at every spawning call the estimated total is the probed duration
times 1.2, with 72 = 60 × 1.2 substituted when the probe fails or returns a
non-positive value (`get_media_duration` maps probe failure to 0, which the
`duration_sec <= 0` check of line 217 then replaces by 60). -/
theorem C6_eta_estimate (env : Env) (alive : Bool) (s : ControllerState)
    (h : (start_transcription env alive s).spawned = true) :
    (start_transcription env alive s).state.estimated_seconds =
      match env.probe (pyStrip s.fields.input_var) with
      | none => (72 : ℚ)
      | some d => if d ≤ 0 then (72 : ℚ) else d * (6 / 5) := by
  rw [start_spawn_eq env alive s h]
  show (if get_media_duration env (pyStrip s.fields.input_var) ≤ 0
      then (60 : ℚ)
      else get_media_duration env (pyStrip s.fields.input_var)) * (6 / 5) = _
  unfold get_media_duration
  cases hp : env.probe (pyStrip s.fields.input_var) with
  | none =>
      show (if (0 : ℚ) ≤ 0 then (60 : ℚ) else 0) * (6 / 5) = (72 : ℚ)
      norm_num
  | some d =>
      show (if d ≤ 0 then (60 : ℚ) else d) * (6 / 5) =
        if d ≤ 0 then (72 : ℚ) else d * (6 / 5)
      rcases le_or_lt d 0 with hd | hd
      · rw [if_pos hd, if_pos hd]
        norm_num
      · rw [if_neg (not_le.mpr hd), if_neg (not_le.mpr hd)]

/-- C6 witness: with a failing probe the estimate is exactly 72. -/
theorem C6_witness :
    (start_transcription wEnvNoProbe false wReady).state.estimated_seconds = 72 := by
  rw [C6_eta_estimate wEnvNoProbe false wReady rfl]
  rfl

/-- C8: a `start_transcription` call with an empty or non-existing input
path (while no job is alive) returns through the line 200-202 branch: no
worker is spawned, the synchronous error box is shown, and the state — in
particular liveness — is untouched. -/
theorem C8_precondition_failure (env : Env) (s : ControllerState)
    (h : pyStrip s.fields.input_var = "" ∨
      env.pathExists (pyStrip s.fields.input_var) = false) :
    (start_transcription env false s).spawned = false ∧
    (start_transcription env false s).popup =
      some { kind := MsgKind.error, title := "Error",
             body := "Please select a valid input file." } ∧
    (start_transcription env false s).state = s := by
  rw [start_invalid_input env false s h]
  exact ⟨rfl, rfl, rfl⟩

/-- C8 witness: concrete non-existing input file. -/
theorem C8_witness :
    (start_transcription wEnvNoFile false wReady).spawned = false ∧
    (start_transcription wEnvNoFile false wReady).popup =
      some { kind := MsgKind.error, title := "Error",
             body := "Please select a valid input file." } ∧
    (start_transcription wEnvNoFile false wReady).state = wReady :=
  C8_precondition_failure wEnvNoFile wReady (Or.inr rfl)

/-- C9 counterexample: the claim asserts `estimated_seconds` is at least 1.2
when the probe succeeds with a positive duration.  A successful probe of a
half-second file yields `estimated_seconds = 0.5 × 1.2 = 0.6 < 1.2`. -/
theorem C9_counterexample :
    wEnvHalf.probe (pyStrip wReady.fields.input_var) = some (1 / 2) ∧
    (0 : ℚ) < 1 / 2 ∧
    (start_transcription wEnvHalf false wReady).spawned = true ∧
    (start_transcription wEnvHalf false wReady).state.estimated_seconds < 6 / 5 := by
  refine ⟨rfl, by norm_num, rfl, ?_⟩
  rw [start_spawn_eq wEnvHalf false wReady rfl]
  show (if get_media_duration wEnvHalf (pyStrip wReady.fields.input_var) ≤ 0
      then (60 : ℚ)
      else get_media_duration wEnvHalf (pyStrip wReady.fields.input_var)) * (6 / 5) < 6 / 5
  show (if (1 / 2 : ℚ) ≤ 0 then (60 : ℚ) else 1 / 2) * (6 / 5) < 6 / 5
  norm_num

/-- C9 (amended): after every spawning call `estimated_seconds` is strictly
positive — exactly 72 when the probe fails or is non-positive, and
`1.2 × duration > 0` otherwise — and no tick ever changes it, so the divisor
`estimated_seconds * 1000` of the percentage computation (line 238) is
nonzero at every tick of the job. -/
theorem C9_estimate_positive (env : Env) (alive : Bool) (s : ControllerState)
    (h : (start_transcription env alive s).spawned = true) :
    0 < (start_transcription env alive s).state.estimated_seconds ∧
    ∀ aliveFor n,
      (runTicks aliveFor (start_transcription env alive s).state n).estimated_seconds
        * 1000 ≠ 0 := by
  have hp := est_pos_of_spawned env alive s h
  refine ⟨hp, fun aliveFor n => ?_⟩
  rw [runTicks_est]
  exact (mul_pos hp (by norm_num)).ne'

/-- C9 witness: the amended theorem at a concrete spawning call. -/
theorem C9_amended_witness :
    0 < (start_transcription wEnvOk false wReady).state.estimated_seconds ∧
    (runTicks 2 (start_transcription wEnvOk false wReady).state 1).estimated_seconds
      * 1000 ≠ 0 :=
  ⟨(C9_estimate_positive wEnvOk false wReady rfl).1,
    (C9_estimate_positive wEnvOk false wReady rfl).2 2 1⟩

/-! ## Claims C3 and C10 (progress simulation) -/

/-- C3: along the tick trajectory of any spawned job (worker alive for the
first `aliveFor` ticks), the displayed progress value is non-decreasing from
tick to tick, stays at most 98 while the worker is alive (with a next tick
always scheduled), and the first tick after termination sets it to exactly
100 and stops rescheduling. -/
theorem C3_progress_simulation (env : Env) (alive : Bool) (s : ControllerState)
    (aliveFor : ℕ) (h : (start_transcription env alive s).spawned = true) :
    (∀ n, n ≤ aliveFor →
        (runTicks aliveFor (start_transcription env alive s).state n).progressValue ≤ 98 ∧
        (runTicks aliveFor (start_transcription env alive s).state n).tickScheduled = true) ∧
    (∀ n, n ≤ aliveFor →
        (runTicks aliveFor (start_transcription env alive s).state n).progressValue ≤
          (runTicks aliveFor (start_transcription env alive s).state (n + 1)).progressValue) ∧
    (runTicks aliveFor (start_transcription env alive s).state (aliveFor + 1)).progressValue
          = 100 ∧
    (runTicks aliveFor (start_transcription env alive s).state (aliveFor + 1)).tickScheduled
          = false := by
  have hS := start_spawn_eq env alive s h
  have hE : (start_transcription env alive s).state.elapsed_ms = 0 := by rw [hS]
  have hP : (start_transcription env alive s).state.progressValue = 0 := by rw [hS]
  have hT : (start_transcription env alive s).state.tickScheduled = true := by rw [hS]
  have hpos := est_pos_of_spawned env alive s h
  refine ⟨?_, ?_, ?_, ?_⟩
  · intro n hn
    obtain ⟨-, hc⟩ :=
      runTicks_alive_char aliveFor (start_transcription env alive s).state n hn
    rcases hc with ⟨-, hp, hsch⟩ | ⟨-, hp, hsch⟩
    · rw [hp, hP, hsch, hT]
      norm_num
    · rw [hp, hsch]
      exact ⟨min_le_right _ _, rfl⟩
  · intro n hn
    rcases Nat.lt_or_ge n aliveFor with hlt | hge
    · obtain ⟨-, hc⟩ :=
        runTicks_alive_char aliveFor (start_transcription env alive s).state n
          (Nat.le_of_lt hlt)
      obtain ⟨-, hc'⟩ :=
        runTicks_alive_char aliveFor (start_transcription env alive s).state (n + 1)
          (Nat.succ_le_of_lt hlt)
      rcases hc' with ⟨h0, -, -⟩ | ⟨-, hp', -⟩
      · exact absurd h0 (Nat.succ_ne_zero n)
      rw [hp']
      rcases hc with ⟨h0, hp, -⟩ | ⟨-, hp, -⟩
      · rw [hp, hP, h0]
        refine le_min ?_ (by norm_num)
        have hden : 0 < (start_transcription env alive s).state.estimated_seconds * 1000 :=
          mul_pos hpos (by norm_num)
        have hnum : (0 : ℚ) ≤
            (start_transcription env alive s).state.elapsed_ms + 200 * ((0 + 1 : ℕ) : ℚ) := by
          rw [hE]
          norm_num
        positivity
      · rw [hp]
        have hden : 0 < (start_transcription env alive s).state.estimated_seconds * 1000 :=
          mul_pos hpos (by norm_num)
        gcongr
        have : ((n : ℚ)) ≤ ((n + 1 : ℕ) : ℚ) := by push_cast; linarith
        linarith
    · have heq : n = aliveFor := Nat.le_antisymm hn hge
      subst heq
      rw [runTicks_dead]
      show (runTicks n (start_transcription env alive s).state n).progressValue ≤ 100
      obtain ⟨-, hc⟩ :=
        runTicks_alive_char n (start_transcription env alive s).state n (Nat.le_refl n)
      rcases hc with ⟨-, hp, -⟩ | ⟨-, hp, -⟩
      · rw [hp, hP]
        norm_num
      · rw [hp]
        exact le_trans (min_le_right _ _) (by norm_num)
  · rw [runTicks_dead]
  · rw [runTicks_dead]

/-- C3 witness: a concrete spawned job whose worker lives for two ticks;
the third tick displays 100 and stops the loop. -/
theorem C3_witness :
    (runTicks 2 (start_transcription wEnvOk false wReady).state 3).progressValue = 100 ∧
    (runTicks 2 (start_transcription wEnvOk false wReady).state 3).tickScheduled = false :=
  ⟨(C3_progress_simulation wEnvOk false wReady 2 rfl).2.2.1,
    (C3_progress_simulation wEnvOk false wReady 2 rfl).2.2.2⟩

/-- C10: on every tick that observes the worker alive, the remaining-time
value put into the status text is clamped to be non-negative (line 242),
its displayed integer part is non-negative, and once the simulated elapsed
time reaches the estimated total the displayed remaining time is exactly 0,
never negative. -/
theorem C10_remaining_clamped (s : ControllerState) :
    0 ≤ (progress_tick true s).lastRemaining ∧
    0 ≤ ⌊(progress_tick true s).lastRemaining⌋ ∧
    (s.estimated_seconds * 1000 ≤ s.elapsed_ms + 200 →
      (progress_tick true s).lastRemaining = 0) := by
  rw [progress_tick_alive]
  refine ⟨le_max_left 0 _, Int.floor_nonneg.mpr (le_max_left 0 _), ?_⟩
  intro hle
  show max 0 ((s.estimated_seconds * 1000 - (s.elapsed_ms + 200)) / 1000) = 0
  apply max_eq_left
  apply div_nonpos_of_nonpos_of_nonneg
  · linarith
  · norm_num

/-- C10 witness: a tick where the simulated elapsed time has overrun the
estimate; the clamped remaining value is exactly 0. -/
theorem C10_witness :
    0 ≤ (progress_tick true wOverrun).lastRemaining ∧
    (progress_tick true wOverrun).lastRemaining = 0 :=
  ⟨(C10_remaining_clamped wOverrun).1,
    (C10_remaining_clamped wOverrun).2.2 (by norm_num [wOverrun, wReady, wFields])⟩

/-! ## Lemmas about the worker message lists -/

/-- The optional downgrade message is never terminal. -/
lemma isTerminal_pre (c : Prop) [Decidable c] (m : StatusMsg)
    (hm : m ∈ (if c then [StatusMsg.cudaFallback] else [])) :
    isTerminal m = false := by
  split at hm
  · simp only [List.mem_singleton] at hm
    subst hm
    rfl
  · simp at hm

/-- Every message up to and including "loading model" is non-terminal. -/
lemma msgs1_nonterminal (c : Prop) [Decidable c] (name : String) (m : StatusMsg)
    (hm : m ∈ ((if c then [StatusMsg.cudaFallback] else []) ++
      [StatusMsg.loadingModel name])) :
    isTerminal m = false := by
  rcases List.mem_append.mp hm with h | h
  · exact isTerminal_pre c m h
  · simp only [List.mem_singleton] at h
    subst h
    rfl

/-- Every message up to and including "transcribing" is non-terminal. -/
lemma msgs2_nonterminal (c : Prop) [Decidable c] (name : String) (m : StatusMsg)
    (hm : m ∈ (((if c then [StatusMsg.cudaFallback] else []) ++
      [StatusMsg.loadingModel name]) ++ [StatusMsg.transcribing])) :
    isTerminal m = false := by
  rcases List.mem_append.mp hm with h | h
  · exact msgs1_nonterminal c name m h
  · simp only [List.mem_singleton] at h
    subst h
    rfl

/-! ## Claims C1, C5, C7 (worker side) -/

/-- C5: every `_do_transcription` run posts exactly one terminal status —
done-with-path or error-with-cause — and it is the last message posted (and
hence, by the order-preserving `after(0, ...)` channel, the last applied);
all earlier messages are informational.  `do_transcription` being a total
function is the embedding of the enclosing `try`/`except`: no exception of
device resolution, model loading, transcription or output writing escapes
the worker thread. -/
theorem C5_single_terminal (env : WorkerEnv) (f : FormFields) :
    ∃ pre t, (do_transcription env f).messages = pre ++ [t] ∧
      isTerminal t = true ∧ ∀ m ∈ pre, isTerminal m = false := by
  simp only [do_transcription]
  cases hL : env.loadModel f.model_var (resolveDevice env.cudaAvailable f.device_var) with
  | error e =>
      exact ⟨_, StatusMsg.error e, rfl, rfl,
        fun m hm => msgs1_nonterminal _ f.model_var m hm⟩
  | ok u =>
      dsimp only
      cases hT : env.transcribe (argsOf env.cudaAvailable f).path with
      | error e =>
          exact ⟨((if f.device_var = "cuda" ∧ env.cudaAvailable = false
              then [StatusMsg.cudaFallback] else []) ++
              [StatusMsg.loadingModel f.model_var]) ++ [StatusMsg.transcribing],
            StatusMsg.error e, rfl, rfl,
            fun m hm => msgs2_nonterminal _ f.model_var m hm⟩
      | ok text =>
          dsimp only
          cases hW : env.writeFile (pyStrip f.output_var) text with
          | error e =>
              exact ⟨((if f.device_var = "cuda" ∧ env.cudaAvailable = false
                  then [StatusMsg.cudaFallback] else []) ++
                  [StatusMsg.loadingModel f.model_var]) ++ [StatusMsg.transcribing],
                StatusMsg.error e, rfl, rfl,
                fun m hm => msgs2_nonterminal _ f.model_var m hm⟩
          | ok v =>
              exact ⟨((if f.device_var = "cuda" ∧ env.cudaAvailable = false
                  then [StatusMsg.cudaFallback] else []) ++
                  [StatusMsg.loadingModel f.model_var]) ++ [StatusMsg.transcribing],
                StatusMsg.done (pyStrip f.output_var), rfl, rfl,
                fun m hm => msgs2_nonterminal _ f.model_var m hm⟩

/-- C7: when cuda is requested but unavailable, the worker resolves the
device to "cpu" (used for `load_model` and the `fp16` flag), posts the
informational downgrade message as its first message — before the
"loading model" message — and neither of those two messages is an error. -/
theorem C7_cuda_downgrade (env : WorkerEnv) (f : FormFields)
    (hreq : f.device_var = "cuda") (hcuda : env.cudaAvailable = false) :
    (do_transcription env f).resolvedDevice = "cpu" ∧
    (do_transcription env f).messages.take 2 =
      [StatusMsg.cudaFallback, StatusMsg.loadingModel f.model_var] ∧
    (argsOf env.cudaAvailable f).fp16 = false ∧
    isTerminal StatusMsg.cudaFallback = false ∧
    isTerminal (StatusMsg.loadingModel f.model_var) = false := by
  have hc : f.device_var = "cuda" ∧ env.cudaAvailable = false := ⟨hreq, hcuda⟩
  have hdev : resolveDevice env.cudaAvailable f.device_var = "cpu" := by
    unfold resolveDevice
    rw [if_pos hc]
  have hfp : (argsOf env.cudaAvailable f).fp16 = false := by
    show (resolveDevice env.cudaAvailable f.device_var == "cuda") = false
    rw [hdev]
    rfl
  simp only [do_transcription, if_pos hc, hdev]
  cases hL : env.loadModel f.model_var "cpu" with
  | error e => exact ⟨rfl, rfl, hfp, rfl, rfl⟩
  | ok u =>
      dsimp only
      cases hT : env.transcribe (argsOf env.cudaAvailable f).path with
      | error e => exact ⟨rfl, rfl, hfp, rfl, rfl⟩
      | ok text =>
          dsimp only
          cases hW : env.writeFile (pyStrip f.output_var) text with
          | error e => exact ⟨rfl, rfl, hfp, rfl, rfl⟩
          | ok v => exact ⟨rfl, rfl, hfp, rfl, rfl⟩

/-- C7 witness: concrete cuda-requested run on a cuda-less machine. -/
theorem C7_witness :
    (do_transcription wWEnvOk wFieldsCuda).resolvedDevice = "cpu" ∧
    (do_transcription wWEnvOk wFieldsCuda).messages.take 2 =
      [StatusMsg.cudaFallback, StatusMsg.loadingModel wFieldsCuda.model_var] ∧
    (argsOf wWEnvOk.cudaAvailable wFieldsCuda).fp16 = false ∧
    isTerminal StatusMsg.cudaFallback = false ∧
    isTerminal (StatusMsg.loadingModel wFieldsCuda.model_var) = false :=
  C7_cuda_downgrade wWEnvOk wFieldsCuda rfl rfl

/-- C1 counterexample: the claim asserts that the arguments passed to the
engine and the output location depend only on the form fields at job-start
time.  Two runs both started with the fields `wFields`; in the second, the
output field was mutated to "other.txt" after the worker was spawned but
before line 284 executed its `.get()`.  The written output locations differ,
so the behaviour depends on the mutated — not the start-time — value:
the source takes no snapshot of the form fields at job start. -/
theorem C1_counterexample :
    (do_transcription wWEnvOk wFields).written = some ("out.txt", "hello") ∧
    (do_transcription wWEnvOk { wFields with output_var := "other.txt" }).written =
      some ("other.txt", "hello") := by
  decide

/-- C1 (amended): the in-flight job's behaviour depends on the form-field
values at the moment the worker thread reads them (lines 255, 263, 269-270,
284), not on their values at job-start time: on a successful run the
`load_model` and `transcribe` call receives the model, device, path and
language derived from the at-read fields `f`, and the transcript is written
to the at-read output path.  Mutating a form field between job start and the
worker's read changes the corresponding argument or output location. -/
theorem C1_fields_read_at_execution (env : WorkerEnv) (f : FormFields)
    (text : String)
    (hl : env.loadModel f.model_var (resolveDevice env.cudaAvailable f.device_var) =
      Except.ok ())
    (ht : env.transcribe (argsOf env.cudaAvailable f).path = Except.ok text)
    (hw : env.writeFile (pyStrip f.output_var) text = Except.ok ()) :
    (do_transcription env f).callArgs =
      some (f.model_var, resolveDevice env.cudaAvailable f.device_var,
        argsOf env.cudaAvailable f) ∧
    (do_transcription env f).written = some (pyStrip f.output_var, text) ∧
    (argsOf env.cudaAvailable f).path = pyStrip f.input_var ∧
    (argsOf env.cudaAvailable f).language =
      (if f.lang_var = "Auto" then none else some f.lang_var) := by
  simp only [do_transcription]
  rw [hl]
  dsimp only
  rw [ht]
  dsimp only
  rw [hw]
  exact ⟨rfl, rfl, rfl, rfl⟩

/-- C1 witness: the amended theorem at a concrete all-successful run. -/
theorem C1_amended_witness :
    (do_transcription wWEnvOk wFields).callArgs =
      some (wFields.model_var, resolveDevice wWEnvOk.cudaAvailable wFields.device_var,
        argsOf wWEnvOk.cudaAvailable wFields) ∧
    (do_transcription wWEnvOk wFields).written =
      some (pyStrip wFields.output_var, "hello") ∧
    (argsOf wWEnvOk.cudaAvailable wFields).path = pyStrip wFields.input_var ∧
    (argsOf wWEnvOk.cudaAvailable wFields).language =
      (if wFields.lang_var = "Auto" then none else some wFields.lang_var) :=
  C1_fields_read_at_execution wWEnvOk wFields "hello" rfl rfl rfl
